import Mathlib

/-!
Verification development for the DuoSpend shared finance tracker.

Shallow embedding of the core data model, the transaction creation
paths, the equity and budget computations, the settle-up operation and
the two generations of the sync protocol (the atomic single round-trip
variant from src/utils/sync.ts v4.0 with its caller handleSync, and the
legacy two-step POST-then-GET variant from src/App.tsx).

Monetary values are modelled as rationals; the calendar date of a
transaction is modelled by the pair of its parsed month and year, which
is all the window bucketing in the source reads from it.
-/

namespace DuoSpend

/-- The two partner roles (src/types.ts, enum UserRole). -/
inductive UserRole where
  | PARTNER_1
  | PARTNER_2
deriving DecidableEq, Repr

/-- A split of a transaction total into one category
(src/types.ts, interface TransactionSplit). -/
structure TransactionSplit where
  categoryName : String
  amount : Rat
deriving DecidableEq, Repr

/-- The parsed month and year of a transaction date, as read by
new Date(t.date).getMonth() and .getFullYear() in the source. -/
structure TxDate where
  month : Nat
  year : Int
deriving DecidableEq, Repr

/-- A shared transaction (src/types.ts, interface Transaction). -/
structure Transaction where
  id : String
  totalAmount : Rat
  splits : List TransactionSplit
  date : TxDate
  description : String
  userId : UserRole
deriving DecidableEq, Repr

/-- A category registry entry (src/types.ts, CategoryDefinition). -/
structure CategoryDefinition where
  id : String
  name : String
  color : String
  icon : String
deriving DecidableEq, Repr

/-- A savings goal (src/types.ts, interface Goal). -/
structure Goal where
  id : String
  name : String
  target : Rat
  current : Rat
  icon : String
deriving DecidableEq, Repr

/-- The budget map, category name to monthly limit
(Record string to number in the source). -/
abbrev BudgetMap := List (String × Rat)

/-- Sum of the amounts of a list of splits, as the source computes it
with reduce((acc, s) => acc + s.amount, 0). -/
def splitsSum (splits : List TransactionSplit) : Rat :=
  splits.foldl (fun acc s => acc + s.amount) 0

/-- Manual transaction creation in src/components/Views.tsx,
handleSubmit (lines 98 to 113): rejects a non-positive derived total,
otherwise stores all entered splits and the derived total. -/
def handleSubmit (newSplits : List TransactionSplit) (newDesc newId : String)
    (newDate : TxDate) (newUser : UserRole) : Option Transaction :=
  let totalAmount := newSplits.foldl (fun acc s => acc + s.amount) 0
  if totalAmount ≤ 0 then none
  else some {
    id := newId
    description := if newDesc = "" then "Expense" else newDesc
    date := newDate
    userId := newUser
    splits := newSplits
    totalAmount := totalAmount }

/-- Manual transaction creation in the single-split App variant
(src/App.tsx, handleManualAdd, lines 213 to 222): one split carrying
the whole amount; a non-positive amount is rejected. -/
def handleManualAdd (amountNum : Rat) (newDesc newId : String)
    (newDate : TxDate) (newUser : UserRole) (newCat : String) : Option Transaction :=
  if amountNum ≤ 0 then none
  else some {
    id := newId
    description := if newDesc = "" then "Expense" else newDesc
    date := newDate
    userId := newUser
    splits := [⟨newCat, amountNum⟩]
    totalAmount := amountNum }

/-- Manual transaction creation in the multi-split App variant
(src/App.tsx, handleManualAdd, lines 660 to 675): the stored total is
the sum over ALL entered splits, while the stored split list keeps only
the splits with positive amount. -/
def handleManualAddV2 (newSplits : List TransactionSplit) (newDesc newId : String)
    (newDate : TxDate) (newUser : UserRole) : Option Transaction :=
  let totalAmount := newSplits.foldl (fun acc s => acc + s.amount) 0
  if totalAmount ≤ 0 then none
  else some {
    id := newId
    description := if newDesc = "" then "Expense" else newDesc
    date := newDate
    userId := newUser
    splits := newSplits.filter (fun s => decide (0 < s.amount))
    totalAmount := totalAmount }

/-- Receipt-scan transaction creation (src/App.tsx, handleFileUpload):
the parsed amount becomes both the total and the single split, with no
positivity check. -/
def receiptTransaction (parsedAmount : Rat) (parsedDesc parsedCat newId : String)
    (now : TxDate) (newUser : UserRole) : Transaction :=
  { id := newId
    totalAmount := parsedAmount
    description := parsedDesc
    splits := [⟨parsedCat, parsedAmount⟩]
    date := now
    userId := newUser }

/-- The per-category running totals object built by the dashboard:
category names initialised from the registry map to a running amount,
every other name is absent (undefined in the source). -/
abbrev TotalsMap := String → Option Rat

/-- categories.forEach(c => totals[c.name] = 0) in src/App.tsx. -/
def totalsInit (categories : List CategoryDefinition) : TotalsMap :=
  fun name => if categories.any (fun c => c.name == name) then some 0 else none

/-- One split contribution: the amount is added only when the category
key is already present (the undefined check in src/App.tsx line 111). -/
def addSplit (m : TotalsMap) (s : TransactionSplit) : TotalsMap :=
  match m s.categoryName with
  | none => m
  | some v => fun name => if name == s.categoryName then some (v + s.amount) else m name

/-- The aggregate computed by the monthlyTotals memo of the first
Dashboard (src/App.tsx lines 96 to 116). -/
structure MonthlyTotals where
  totals : TotalsMap
  totalCombined : Rat
  p1 : Rat
  p2 : Rat

/-- One loop iteration of the monthlyTotals memo: the per-partner sums
p1 and p2 are updated for EVERY transaction, while the combined total
and the per-category totals are updated only for transactions dated in
the current month and year. -/
def monthlyStep (currentMonth : Nat) (currentYear : Int)
    (acc : MonthlyTotals) (t : Transaction) : MonthlyTotals :=
  let acc :=
    if t.userId == UserRole.PARTNER_1 then { acc with p1 := acc.p1 + t.totalAmount }
    else { acc with p2 := acc.p2 + t.totalAmount }
  if t.date.month == currentMonth && t.date.year == currentYear then
    { acc with
      totalCombined := acc.totalCombined + t.totalAmount
      totals := t.splits.foldl addSplit acc.totals }
  else acc

/-- The monthlyTotals memo of the first Dashboard (src/App.tsx lines
96 to 116): a fold of monthlyStep over the transaction list. -/
def monthlyTotals (transactions : List Transaction)
    (categories : List CategoryDefinition)
    (currentMonth : Nat) (currentYear : Int) : MonthlyTotals :=
  transactions.foldl (monthlyStep currentMonth currentYear)
    ⟨totalsInit categories, 0, 0, 0⟩

/-- diff = monthlyTotals.p1 - monthlyTotals.p2 (src/App.tsx line 118). -/
def settlementDiff (mt : MonthlyTotals) : Rat := mt.p1 - mt.p2

/-- settlementAmount = Math.abs(diff) / 2 (src/App.tsx line 119). -/
def settlementAmount (mt : MonthlyTotals) : Rat := |settlementDiff mt| / 2

/-- The settlement verdict shown by the dashboard. -/
inductive SettlementMsg where
  | balanced
  | owes (who : UserRole) (amount : Rat)
deriving DecidableEq, Repr

/-- The settlement message of the first Dashboard (src/App.tsx lines
120 to 124): balanced when diff is zero, otherwise the partner with the
smaller paid total owes half the difference. -/
def settlementMsg (mt : MonthlyTotals) : SettlementMsg :=
  if settlementDiff mt = 0 then .balanced
  else if 0 < settlementDiff mt then .owes .PARTNER_2 (settlementAmount mt)
  else .owes .PARTNER_1 (settlementAmount mt)

/-- Modelled from the words of the spec, for comparison with the code:
owed = combinedTotal * ratioA - paid[A] (spec section 4.2, steps 3 to 5). -/
def specEquityOwed (paidA paidB ratioA : Rat) : Rat :=
  (paidA + paidB) * ratioA - paidA

/-- The window filter of the second Dashboard variant
(src/App.tsx lines 541 to 544, monthlyTransactions memo). -/
def monthlyTransactions (transactions : List Transaction)
    (currentMonth : Nat) (currentYear : Int) : List Transaction :=
  transactions.filter
    (fun t => t.date.month == currentMonth && t.date.year == currentYear)

/-- partner1Total of the second Dashboard variant (src/App.tsx line
558): month-filtered transactions of PARTNER_1, totals summed. -/
def partner1Total (transactions : List Transaction)
    (currentMonth : Nat) (currentYear : Int) : Rat :=
  ((monthlyTransactions transactions currentMonth currentYear).filter
      (fun t => t.userId == UserRole.PARTNER_1)).foldl
    (fun acc t => acc + t.totalAmount) 0

/-- partner2Total of the second Dashboard variant (src/App.tsx line
559). -/
def partner2Total (transactions : List Transaction)
    (currentMonth : Nat) (currentYear : Int) : Rat :=
  ((monthlyTransactions transactions currentMonth currentYear).filter
      (fun t => t.userId == UserRole.PARTNER_2)).foldl
    (fun acc t => acc + t.totalAmount) 0

/-- budgets[cat.name] || 0 (src/App.tsx lines 164 and 616). -/
def budgetLookup (budgets : BudgetMap) (name : String) : Rat :=
  (budgets.lookup name).getD 0

/-- isOver of the first Dashboard (src/App.tsx line 166):
spent > budget && budget > 0. -/
def isOver (spent budget : Rat) : Bool :=
  decide (budget < spent) && decide (0 < budget)

/-- isOver of the second Dashboard variant (src/App.tsx line 618):
spent > budget with NO positivity guard on the budget. -/
def isOverV2 (spent budget : Rat) : Bool :=
  decide (budget < spent)

/-- Lifetime paid total of PARTNER_1, as handleSettleUp computes it
(src/README.md line 482): a reduce over ALL transactions. -/
def p1TotalAll (transactions : List Transaction) : Rat :=
  transactions.foldl
    (fun acc t => if t.userId == UserRole.PARTNER_1 then acc + t.totalAmount else acc) 0

/-- Lifetime paid total of PARTNER_2 (src/README.md line 483). -/
def p2TotalAll (transactions : List Transaction) : Rat :=
  transactions.foldl
    (fun acc t => if t.userId == UserRole.PARTNER_2 then acc + t.totalAmount else acc) 0

/-- The settle-up operation (src/README.md lines 480 to 494,
handleSettleUp): when confirmed, appends a balancing transaction whose
payer is the partner with the smaller lifetime total and whose amount
is half the absolute difference, in the reserved category
One time things (Category.ONE_TIME). -/
def handleSettleUp (confirmed : Bool) (transactions : List Transaction)
    (newId : String) (now : TxDate) : List Transaction :=
  if !confirmed then transactions
  else
    let diff := p1TotalAll transactions - p2TotalAll transactions
    let settleAmt := |diff| / 2
    transactions ++ [{
      id := newId
      description := "Reset Equity"
      date := now
      userId := if 0 < diff then UserRole.PARTNER_2 else UserRole.PARTNER_1
      totalAmount := settleAmt
      splits := [⟨"One time things", settleAmt⟩] }]

/-- The mutable app state relevant to deletion (src/README.md App
component): transaction list, budget map, partner display names,
goals. -/
structure AppStateM where
  transactions : List Transaction
  budgets : BudgetMap
  partner1Name : String
  partner2Name : String
  goals : List Goal
deriving DecidableEq, Repr

/-- deleteTransaction (src/README.md lines 473 to 475 and src/App.tsx
line 386): when the confirm dialog is accepted, keep exactly the
transactions whose id differs from the given id; nothing else in the
state is touched. -/
def deleteTransaction (confirmed : Bool) (id : String) (s : AppStateM) : AppStateM :=
  if confirmed then
    { s with transactions := s.transactions.filter (fun t => t.id != id) }
  else s

/-- The JSON body of the atomic sync response (src/utils/sync.ts,
v4.0 protocol): every field may be absent, mirroring the optional
chaining and truthiness checks of the source. -/
structure SyncPayload where
  status : Option String
  message : Option String
  transactions : Option (List Transaction)
  budgets : Option BudgetMap
deriving DecidableEq, Repr

/-- The observable outcome of the round trip performed by fetch in
performSync: the request throws (transport failure, timeout, or a
json() parse failure modelled as body none), or a response arrives
with its ok flag and parsed body. -/
inductive RemoteResult where
  | fetchThrows
  | response (ok : Bool) (body : Option SyncPayload)
deriving DecidableEq, Repr

/-- The error taxonomy surfaced by performSync. -/
inductive SyncError where
  | transport
  | httpNotOk
  | badJson
  | remote (message : String)
deriving DecidableEq, Repr

/-- The object performSync resolves with: either the parsed remote
data, or the kept local collections when the data-loss guard fires and
the user declines the wipe. -/
structure SyncOutcome where
  transactions : Option (List Transaction)
  budgets : Option BudgetMap
deriving DecidableEq, Repr

/-- True exactly on the remote outcomes in which the request throws,
the HTTP status is not ok, or the response body does not parse. -/
def requestFails : RemoteResult → Bool
  | .fetchThrows => true
  | .response ok body => !ok || body.isNone

/-- The atomic sync (src/utils/sync.ts lines 214 to 247, performSync
v4.0): one POST round trip; a thrown fetch, a non-ok status or an
unparseable body raise; a status error payload raises with the remote
message; when the local set is non-empty and the remote transaction
list is missing or empty, the data-loss guard asks for confirmation
and, when declined, resolves with the untouched local collections;
otherwise the parsed remote data is returned. -/
def performSync (transactions : List Transaction) (budgets : BudgetMap)
    (remote : RemoteResult) (confirmWipe : Bool) : Except SyncError SyncOutcome :=
  match remote with
  | .fetchThrows => .error .transport
  | .response ok body =>
    if !ok then .error .httpNotOk
    else
      match body with
      | none => .error .badJson
      | some data =>
        if data.status == some "error" then
          .error (.remote (data.message.getD "Server error during sync"))
        else if !transactions.isEmpty && (data.transactions.getD []).isEmpty then
          if !confirmWipe then .ok ⟨some transactions, some budgets⟩
          else .ok ⟨data.transactions, data.budgets⟩
        else .ok ⟨data.transactions, data.budgets⟩

/-- True exactly when the Except value is an error. -/
def isSyncError : Except SyncError SyncOutcome → Bool
  | .error _ => true
  | .ok _ => false

/-- The caller of the atomic sync (src/unnamed/part_003 lines 31 to
49, handleSync): an invalid url or any raised error leaves the local
state untouched; on a resolved outcome the transaction list is adopted
when present, and then the budget map when present. -/
def handleSync (urlOk : Bool) (transactions : List Transaction)
    (budgets : BudgetMap) (remote : RemoteResult) (confirmWipe : Bool) :
    List Transaction × BudgetMap :=
  if !urlOk then (transactions, budgets)
  else
    match performSync transactions budgets remote confirmWipe with
    | .error _ => (transactions, budgets)
    | .ok d =>
      match d.transactions with
      | none => (transactions, budgets)
      | some ts =>
        match d.budgets with
        | none => (ts, budgets)
        | some b => (ts, b)

/-- The observable outcome of the legacy two-step sync: the POST or
GET throws, or the GET body parses with an optional transactions
field. -/
inductive LegacyRemote where
  | throws
  | getBody (transactions : Option (List Transaction))
deriving DecidableEq, Repr

/-- The legacy two-step sync caller (src/App.tsx lines 369 to 378,
syncData): POST the local set, GET the remote state, and adopt
data.transactions whenever the field is present, with no data-loss
guard and no confirmation; a thrown request leaves the state
untouched. The budget map is never written by this path. -/
def syncData (transactions : List Transaction) (budgets : BudgetMap)
    (remote : LegacyRemote) : List Transaction × BudgetMap :=
  match remote with
  | .throws => (transactions, budgets)
  | .getBody none => (transactions, budgets)
  | .getBody (some ts) => (ts, budgets)

/-! Concrete sample data used by counterexamples and witnesses. -/

/-- A one-entry category registry for concrete evaluations. -/
def cats1 : List CategoryDefinition := [⟨"1", "Food", "orange", "F"⟩]

/-- A concrete in-window transaction: PARTNER_1 paid 300. -/
def txA300 : Transaction :=
  ⟨"a", 300, [⟨"Food", 300⟩], ⟨5, 2024⟩, "groceries", .PARTNER_1⟩

/-- A concrete in-window transaction: PARTNER_2 paid 100. -/
def txB100 : Transaction :=
  ⟨"b", 100, [⟨"Food", 100⟩], ⟨5, 2024⟩, "utilities", .PARTNER_2⟩

/-- A concrete transaction dated outside the May 2024 window. -/
def txOld : Transaction :=
  ⟨"old", 50, [⟨"Food", 50⟩], ⟨1, 2020⟩, "ancient", .PARTNER_1⟩

/-- Five concrete local transactions for the data-loss scenarios. -/
def fiveTxs : List Transaction :=
  [⟨"1", 10, [⟨"Food", 10⟩], ⟨5, 2024⟩, "t1", .PARTNER_1⟩,
   ⟨"2", 20, [⟨"Food", 20⟩], ⟨5, 2024⟩, "t2", .PARTNER_2⟩,
   ⟨"3", 30, [⟨"Food", 30⟩], ⟨5, 2024⟩, "t3", .PARTNER_1⟩,
   ⟨"4", 40, [⟨"Food", 40⟩], ⟨5, 2024⟩, "t4", .PARTNER_2⟩,
   ⟨"5", 50, [⟨"Food", 50⟩], ⟨5, 2024⟩, "t5", .PARTNER_1⟩]

/-- A concrete budget map. -/
def sampleBudgets : BudgetMap := [("Food", 600), ("Gas", 150)]

/-- The transaction produced by the Views.tsx submit path on a single
3 dollar Food split. -/
def sampleTx : Transaction :=
  ⟨"i", 3, [⟨"Food", 3⟩], ⟨5, 2024⟩, "Expense", .PARTNER_1⟩

/-- A concrete well-formed remote payload carrying one transaction. -/
def samplePayload : SyncPayload :=
  ⟨some "success", none, some [txA300], some [("Food", 500)]⟩

/-- A concrete remote payload with an empty transaction list. -/
def emptyPayload : SyncPayload :=
  ⟨some "success", none, some [], some [("Food", 500)]⟩

/-- A concrete remote payload reporting a server-side error. -/
def errorPayload : SyncPayload :=
  ⟨some "error", some "sheet locked", none, none⟩

/-- A concrete app state for the deletion witness. -/
def sampleState : AppStateM :=
  ⟨fiveTxs, sampleBudgets, "Tracy", "Trish", [⟨"1", "Emergency Fund", 5000, 0, "S"⟩]⟩

/-! Helper lemmas. -/

theorem p2_ne_p1 : UserRole.PARTNER_2 ≠ UserRole.PARTNER_1 :=
  fun h => UserRole.noConfusion h

theorem p1_ne_p2 : UserRole.PARTNER_1 ≠ UserRole.PARTNER_2 :=
  fun h => UserRole.noConfusion h

theorem splitsSum_foldl (c : Rat) (splits : List TransactionSplit) :
    splits.foldl (fun acc s => acc + s.amount) c = c + splitsSum splits := by
  induction splits generalizing c with
  | nil => simp [splitsSum]
  | cons s l ih =>
    simp only [splitsSum, List.foldl_cons] at *
    rw [ih, ih (0 + s.amount)]
    ring

theorem splitsSum_cons (s : TransactionSplit) (l : List TransactionSplit) :
    splitsSum (s :: l) = s.amount + splitsSum l := by
  rw [show splitsSum (s :: l)
        = l.foldl (fun acc s => acc + s.amount) (0 + s.amount) from rfl,
     splitsSum_foldl]
  ring

theorem splitsSum_nonneg (splits : List TransactionSplit)
    (h : ∀ s ∈ splits, 0 ≤ s.amount) : 0 ≤ splitsSum splits := by
  induction splits with
  | nil => simp [splitsSum]
  | cons s l ih =>
    rw [splitsSum_cons]
    have hs := h s (List.mem_cons_self s l)
    have hl := ih (fun x hx => h x (List.mem_cons_of_mem s hx))
    linarith

theorem splitsSum_filter_pos (splits : List TransactionSplit)
    (h : ∀ s ∈ splits, 0 ≤ s.amount) :
    splitsSum (splits.filter (fun s => decide (0 < s.amount))) = splitsSum splits := by
  induction splits with
  | nil => rfl
  | cons s l ih =>
    have hs := h s (List.mem_cons_self s l)
    have hl := ih (fun x hx => h x (List.mem_cons_of_mem s hx))
    by_cases hpos : 0 < s.amount
    · have hd : (decide (0 < s.amount)) = true := by simpa using hpos
      rw [List.filter_cons, hd]
      simp only [if_true]
      rw [splitsSum_cons, splitsSum_cons, hl]
    · have hz : s.amount = 0 := le_antisymm (not_lt.mp hpos) hs
      have hd : (decide (0 < s.amount)) = false := by simpa using hpos
      rw [List.filter_cons, hd]
      simp only [Bool.false_eq_true, if_false]
      rw [splitsSum_cons, hl, hz]
      ring

/-! Claim C1: the data-loss guard. -/

/-- C1 counterexample: the legacy two-step sync path
(src/App.tsx syncData, lines 369 to 378) adopts an empty remote
snapshot without any confirmation: with five local transactions and a
remote body carrying an empty transaction list, the post-sync local
set is empty, not the pre-sync five. -/
theorem C1_counterexample :
    (syncData fiveTxs sampleBudgets (.getBody (some []))).1 ≠ fiveTxs ∧
    fiveTxs.length = 5 ∧
    (syncData fiveTxs sampleBudgets (.getBody (some []))).1 = [] := by
  refine ⟨?_, by decide, rfl⟩
  decide

/-- C1 amended: in the atomic sync path (src/utils/sync.ts performSync
v4.0 with its caller handleSync), when the local set is non-empty, the
remote response is well-formed and not an error, its transaction list
is missing or empty, and the user does not confirm the wipe, the local
transaction set and budget map after the call are exactly the pre-sync
local ones. -/
theorem C1_guard (urlOk : Bool) (txs : List Transaction) (bud : BudgetMap)
    (p : SyncPayload)
    (hne : txs ≠ [])
    (hstatus : (p.status == some "error") = false)
    (hempty : (p.transactions.getD []).isEmpty = true) :
    handleSync urlOk txs bud (.response true (some p)) false = (txs, bud) ∧
    performSync txs bud (.response true (some p)) false =
      .ok ⟨some txs, some bud⟩ := by
  have hne2 : txs.isEmpty = false := by
    cases txs with
    | nil => exact absurd rfl hne
    | cons a l => rfl
  have hps : performSync txs bud (.response true (some p)) false =
      .ok ⟨some txs, some bud⟩ := by
    simp [performSync, hstatus, hempty, hne2]
  refine ⟨?_, hps⟩
  cases urlOk with
  | false => rfl
  | true => simp [handleSync, hps]

/-- C1 witness: the guard theorem applied to the five concrete local
transactions against a success payload with an empty remote list. -/
theorem C1_guard_witness :
    handleSync true fiveTxs sampleBudgets (.response true (some emptyPayload))
        false = (fiveTxs, sampleBudgets) ∧
    performSync fiveTxs sampleBudgets (.response true (some emptyPayload))
        false = .ok ⟨some fiveTxs, some sampleBudgets⟩ :=
  C1_guard true fiveTxs sampleBudgets emptyPayload (by decide) (by decide)
    (by decide)

/-! Claim C2: failed request leaves local state untouched. -/

/-- C2: whenever the remote request throws, the HTTP status is not ok,
or the response body does not parse, the atomic sync raises an error
and the caller leaves the local transaction set and budget map exactly
as they were: no partial application on failure. -/
theorem C2_atomicity (urlOk : Bool) (txs : List Transaction) (bud : BudgetMap)
    (r : RemoteResult) (c : Bool)
    (hfail : requestFails r = true) :
    isSyncError (performSync txs bud r c) = true ∧
    handleSync urlOk txs bud r c = (txs, bud) := by
  have herr : isSyncError (performSync txs bud r c) = true := by
    cases r with
    | fetchThrows => rfl
    | response ok body =>
      cases ok with
      | false => rfl
      | true =>
        cases body with
        | none => rfl
        | some data => simp [requestFails] at hfail
  have hE : ∃ e, performSync txs bud r c = .error e := by
    cases hps : performSync txs bud r c with
    | error e => exact ⟨e, rfl⟩
    | ok d => rw [hps] at herr; simp [isSyncError] at herr
  obtain ⟨e, he⟩ := hE
  refine ⟨herr, ?_⟩
  cases urlOk with
  | false => rfl
  | true => simp [handleSync, he]

/-- C2 witness: the atomicity theorem applied to a thrown fetch over
the five concrete local transactions. -/
theorem C2_atomicity_witness :
    isSyncError (performSync fiveTxs sampleBudgets .fetchThrows false) = true ∧
    handleSync true fiveTxs sampleBudgets .fetchThrows false =
      (fiveTxs, sampleBudgets) :=
  C2_atomicity true fiveTxs sampleBudgets .fetchThrows false (by decide)

/-! Claim C3: remote status error is surfaced with its message. -/

/-- C3: when the remote payload carries status error, the atomic sync
raises a remote error holding the remote-provided message and the
caller leaves the local transaction set and budget map unchanged. -/
theorem C3_remoteError (urlOk : Bool) (txs : List Transaction) (bud : BudgetMap)
    (p : SyncPayload) (c : Bool) (m : String)
    (hstatus : p.status = some "error")
    (hmsg : p.message = some m) :
    performSync txs bud (.response true (some p)) c = .error (.remote m) ∧
    handleSync urlOk txs bud (.response true (some p)) c = (txs, bud) := by
  have hps : performSync txs bud (.response true (some p)) c =
      .error (.remote m) := by
    simp [performSync, hstatus, hmsg]
  refine ⟨hps, ?_⟩
  cases urlOk with
  | false => rfl
  | true => simp [handleSync, hps]

/-- C3 witness: the remote-error theorem applied to the concrete
error payload carrying the message sheet locked. -/
theorem C3_remoteError_witness :
    performSync fiveTxs sampleBudgets (.response true (some errorPayload))
        false = .error (.remote "sheet locked") ∧
    handleSync true fiveTxs sampleBudgets (.response true (some errorPayload))
        false = (fiveTxs, sampleBudgets) :=
  C3_remoteError true fiveTxs sampleBudgets errorPayload false "sheet locked"
    rfl rfl

/-! Claim C4: a successful sync adopts the remote snapshot wholesale. -/

/-- C4: on a successful atomic sync whose payload is not an error and
whose data-loss guard does not fire, the new local state is exactly the
transaction list and budget map of the remote response: the remote
snapshot wholly replaces the local collections. -/
theorem C4_adoption (txs : List Transaction) (bud : BudgetMap)
    (p : SyncPayload) (c : Bool) (ts : List Transaction) (b : BudgetMap)
    (hstatus : (p.status == some "error") = false)
    (htx : p.transactions = some ts)
    (hbud : p.budgets = some b)
    (hguard : txs.isEmpty = true ∨ ts.isEmpty = false) :
    handleSync true txs bud (.response true (some p)) c = (ts, b) := by
  have hps : performSync txs bud (.response true (some p)) c =
      .ok ⟨some ts, some b⟩ := by
    rcases hguard with h | h
    · simp [performSync, hstatus, htx, hbud, h]
    · simp [performSync, hstatus, htx, hbud, h]
  simp [handleSync, hps]

/-- C4 witness: the adoption theorem applied to the five concrete
local transactions and a remote payload carrying one transaction; both
local collections are wholly replaced by the remote ones. -/
theorem C4_adoption_witness :
    handleSync true fiveTxs sampleBudgets
        (.response true (some samplePayload)) false =
      ([txA300], [("Food", 500)]) :=
  C4_adoption fiveTxs sampleBudgets samplePayload false [txA300]
    [("Food", 500)] (by decide) rfl rfl (Or.inr (by decide))

/-! Claim C5: the transaction creation invariant. -/

/-- C5 counterexample: the multi-split manual add path (src/App.tsx
lines 660 to 675) totals over ALL entered splits but stores only the
positive ones, so with splits of 5 and minus 2 the created record has
totalAmount 3 while its stored splits sum to 5: the invariant
totalAmount equals the split sum is violated by a stored record. -/
theorem C5_counterexample :
    (handleManualAddV2 [⟨"Food", 5⟩, ⟨"Gas", -2⟩] "store" "x" ⟨5, 2024⟩
        .PARTNER_1).map (fun t => (t.totalAmount, splitsSum t.splits)) =
      some (3, 5) ∧ (3 : Rat) ≠ 5 := by
  constructor
  · norm_num [handleManualAddV2, splitsSum, List.filter]
  · norm_num

/-- C5 amended: the Views.tsx submit path and the single-split manual
add create only records satisfying totalAmount equals the sum of the
splits with a non-empty split list and a positive total, and both
reject a non-positive derived total; the multi-split variant satisfies
the same properties only under the proviso that every entered split
amount is non-negative (its rejection of non-positive totals is
unconditional). -/
theorem C5_invariant :
    (∀ splits desc i d u t, handleSubmit splits desc i d u = some t →
        t.totalAmount = splitsSum t.splits ∧ t.splits ≠ [] ∧
        0 < t.totalAmount) ∧
    (∀ splits desc i d u, splitsSum splits ≤ 0 →
        handleSubmit splits desc i d u = none) ∧
    (∀ amt desc i d u cat t, handleManualAdd amt desc i d u cat = some t →
        t.totalAmount = splitsSum t.splits ∧ t.splits ≠ [] ∧
        0 < t.totalAmount) ∧
    (∀ amt desc i d u cat, amt ≤ 0 → handleManualAdd amt desc i d u cat = none) ∧
    (∀ splits desc i d u t, (∀ s ∈ splits, 0 ≤ s.amount) →
        handleManualAddV2 splits desc i d u = some t →
        t.totalAmount = splitsSum t.splits ∧ t.splits ≠ [] ∧
        0 < t.totalAmount) ∧
    (∀ splits desc i d u, splitsSum splits ≤ 0 →
        handleManualAddV2 splits desc i d u = none) := by
  refine ⟨?_, ?_, ?_, ?_, ?_, ?_⟩
  · intro splits desc i d u t h
    simp only [handleSubmit] at h
    by_cases hle : List.foldl (fun acc s => acc + s.amount) 0 splits ≤ 0
    · rw [if_pos hle] at h
      exact absurd h (by simp)
    · rw [if_neg hle] at h
      have hpos : 0 < splitsSum splits := not_le.mp hle
      have ht := Option.some.inj h
      subst ht
      refine ⟨rfl, ?_, hpos⟩
      intro hnil
      have hnil2 : splits = [] := hnil
      rw [hnil2] at hpos
      exact absurd hpos (by norm_num [splitsSum])
  · intro splits desc i d u h
    simp only [handleSubmit]
    exact if_pos h
  · intro amt desc i d u cat t h
    simp only [handleManualAdd] at h
    by_cases hle : amt ≤ 0
    · rw [if_pos hle] at h
      exact absurd h (by simp)
    · rw [if_neg hle] at h
      have hpos : 0 < amt := not_le.mp hle
      have ht := Option.some.inj h
      subst ht
      refine ⟨?_, by simp, hpos⟩
      simp [splitsSum]
  · intro amt desc i d u cat h
    simp only [handleManualAdd]
    exact if_pos h
  · intro splits desc i d u t hnn h
    simp only [handleManualAddV2] at h
    by_cases hle : List.foldl (fun acc s => acc + s.amount) 0 splits ≤ 0
    · rw [if_pos hle] at h
      exact absurd h (by simp)
    · rw [if_neg hle] at h
      have hpos : 0 < splitsSum splits := not_le.mp hle
      have ht := Option.some.inj h
      subst ht
      have hfp := splitsSum_filter_pos splits hnn
      refine ⟨hfp.symm, ?_, hpos⟩
      intro hnil
      have hnil2 : splits.filter (fun s => decide (0 < s.amount)) = [] := hnil
      rw [hnil2] at hfp
      have hz : splitsSum splits = 0 := by rw [← hfp]; rfl
      rw [hz] at hpos
      exact absurd hpos (by norm_num)
  · intro splits desc i d u h
    simp only [handleManualAddV2]
    exact if_pos h

/-- C5 witness: the invariant theorem applied to the Views.tsx submit
path on a concrete single 3 dollar split. -/
theorem C5_invariant_witness :
    sampleTx.totalAmount = splitsSum sampleTx.splits ∧
    sampleTx.splits ≠ [] ∧ 0 < sampleTx.totalAmount :=
  C5_invariant.1 [⟨"Food", 3⟩] "" "i" ⟨5, 2024⟩ .PARTNER_1 sampleTx
    (by norm_num [handleSubmit, sampleTx])

/-! Claim C6: windowing of the per-partner paid totals. -/

/-- C6 counterexample: in the monthlyTotals memo of the first
Dashboard (src/App.tsx lines 96 to 116), a transaction dated January
2020 still contributes its full 50 to the PARTNER_1 paid total of the
May 2024 window, instead of the 0 the claim requires. -/
theorem C6_counterexample :
    (monthlyTotals [txOld] cats1 5 2024).p1 = 50 ∧
    (txOld.date.month == 5 && txOld.date.year == 2024) = false ∧
    (50 : Rat) ≠ 0 := by
  refine ⟨by norm_num [monthlyTotals, monthlyStep, txOld, p2_ne_p1, p1_ne_p2], by decide, by norm_num⟩

/-- C6 amended: in the monthlyTotals memo, only the combined monthly
total and the per-category totals are restricted to the window; the
per-partner paid totals p1 and p2 are accumulated for every
transaction regardless of its date. The second Dashboard variant
(src/App.tsx lines 541 to 559) does restrict its per-partner totals to
the window: an out-of-window transaction contributes nothing there. -/
theorem C6_windowing :
    (∀ (cm : Nat) (cy : Int) (acc : MonthlyTotals) (t : Transaction),
        (t.date.month == cm && t.date.year == cy) = false →
        (monthlyStep cm cy acc t).totalCombined = acc.totalCombined ∧
        (monthlyStep cm cy acc t).totals = acc.totals) ∧
    (∀ (cm : Nat) (cy : Int) (acc : MonthlyTotals) (t : Transaction),
        (monthlyStep cm cy acc t).p1 =
          (if t.userId == UserRole.PARTNER_1 then acc.p1 + t.totalAmount
           else acc.p1) ∧
        (monthlyStep cm cy acc t).p2 =
          (if t.userId == UserRole.PARTNER_1 then acc.p2
           else acc.p2 + t.totalAmount)) ∧
    (∀ (cm : Nat) (cy : Int) (t : Transaction) (txs : List Transaction),
        (t.date.month == cm && t.date.year == cy) = false →
        partner1Total (t :: txs) cm cy = partner1Total txs cm cy ∧
        partner2Total (t :: txs) cm cy = partner2Total txs cm cy) := by
  refine ⟨?_, ?_, ?_⟩
  · intro cm cy acc t h
    cases hu : (t.userId == UserRole.PARTNER_1) <;>
      simp [monthlyStep, h, hu]
  · intro cm cy acc t
    cases hu : (t.userId == UserRole.PARTNER_1) <;>
      cases hw : (t.date.month == cm && t.date.year == cy) <;>
        simp [monthlyStep, hu, hw]
  · intro cm cy t txs h
    constructor <;>
      simp [partner1Total, partner2Total, monthlyTransactions,
        List.filter_cons, h]

/-- C6 witness: the windowing theorem applied to the concrete
out-of-window transaction txOld over the May 2024 window. -/
theorem C6_windowing_witness :
    (monthlyStep 5 2024 ⟨totalsInit cats1, 0, 0, 0⟩ txOld).totalCombined =
      (0 : Rat) ∧
    partner1Total [txOld] 5 2024 = partner1Total [] 5 2024 := by
  have h1 := (C6_windowing.1 5 2024 ⟨totalsInit cats1, 0, 0, 0⟩ txOld
    (by decide)).1
  have h3 := (C6_windowing.2.2 5 2024 txOld [] (by decide)).1
  exact ⟨h1, h3⟩

/-- The settlement message agrees with the spec formula for an
arbitrary totals record: writing owed for
specEquityOwed p1 p2 (1/2), a negative owed means PARTNER_2 owes
minus owed, a positive owed means PARTNER_1 owes owed, and zero owed
means balanced. -/
theorem settlementMsg_spec (mt : MonthlyTotals) :
    settlementMsg mt =
      (if specEquityOwed mt.p1 mt.p2 (1/2) < 0 then
        .owes .PARTNER_2 (-(specEquityOwed mt.p1 mt.p2 (1/2)))
       else if 0 < specEquityOwed mt.p1 mt.p2 (1/2) then
        .owes .PARTNER_1 (specEquityOwed mt.p1 mt.p2 (1/2))
       else .balanced) := by
  have howed : specEquityOwed mt.p1 mt.p2 (1/2) = -(settlementDiff mt) / 2 := by
    unfold specEquityOwed settlementDiff
    ring
  unfold settlementMsg
  rcases lt_trichotomy (settlementDiff mt) 0 with h | h | h
  · have hop : 0 < specEquityOwed mt.p1 mt.p2 (1/2) := by rw [howed]; linarith
    rw [if_neg (ne_of_lt h), if_neg (by linarith), if_neg (by linarith),
      if_pos hop]
    have habs : settlementAmount mt = specEquityOwed mt.p1 mt.p2 (1/2) := by
      unfold settlementAmount
      rw [abs_of_neg h, howed]
    rw [habs]
  · have hoz : specEquityOwed mt.p1 mt.p2 (1/2) = 0 := by rw [howed, h]; ring
    rw [if_pos h, hoz]
    norm_num
  · have hon : specEquityOwed mt.p1 mt.p2 (1/2) < 0 := by rw [howed]; linarith
    rw [if_neg (by linarith : settlementDiff mt ≠ 0), if_pos h, if_pos hon]
    have habs : settlementAmount mt = -(specEquityOwed mt.p1 mt.p2 (1/2)) := by
      unfold settlementAmount
      rw [abs_of_pos h, howed]
      ring
    rw [habs]

/-! Claim C7: equity correctness. -/

/-- C7: on the concrete window where PARTNER_1 paid 300 and PARTNER_2
paid 100, the dashboard reports that PARTNER_2 owes 100; and over any
transaction list the settlement message follows the sign and magnitude
of owed = combinedTotal times one half minus the PARTNER_1 paid total,
as computed by specEquityOwed. -/
theorem C7_equity :
    settlementMsg (monthlyTotals [txA300, txB100] cats1 5 2024) =
      .owes .PARTNER_2 100 ∧
    ∀ (txs : List Transaction) (cats : List CategoryDefinition)
      (cm : Nat) (cy : Int),
      settlementMsg (monthlyTotals txs cats cm cy) =
        (if specEquityOwed (monthlyTotals txs cats cm cy).p1
              (monthlyTotals txs cats cm cy).p2 (1/2) < 0 then
          .owes .PARTNER_2 (-(specEquityOwed (monthlyTotals txs cats cm cy).p1
              (monthlyTotals txs cats cm cy).p2 (1/2)))
         else if 0 < specEquityOwed (monthlyTotals txs cats cm cy).p1
              (monthlyTotals txs cats cm cy).p2 (1/2) then
          .owes .PARTNER_1 (specEquityOwed (monthlyTotals txs cats cm cy).p1
              (monthlyTotals txs cats cm cy).p2 (1/2))
         else .balanced) := by
  constructor
  · have hp1 : (monthlyTotals [txA300, txB100] cats1 5 2024).p1 = 300 := by
      norm_num [monthlyTotals, monthlyStep, txA300, txB100, p2_ne_p1, p1_ne_p2]
    have hp2 : (monthlyTotals [txA300, txB100] cats1 5 2024).p2 = 100 := by
      norm_num [monthlyTotals, monthlyStep, txA300, txB100, p2_ne_p1, p1_ne_p2]
    unfold settlementMsg settlementAmount settlementDiff
    rw [hp1, hp2]
    norm_num
  · intro txs cats cm cy
    exact settlementMsg_spec (monthlyTotals txs cats cm cy)

/-! Claim C8: settle-up and the resulting equity gap. -/

/-- C8 failing input evaluated: with lifetime paid totals 300 for
PARTNER_1 and 100 for PARTNER_2, one confirmed settle-up appends a 100
transaction paid by PARTNER_2; the next equity computation over a
window containing the synthesized transaction still reports that
PARTNER_2 owes 50, and the equity gap is 100, half the original 200
rather than (near) zero. -/
theorem C8_settleUp_gap :
    settlementMsg (monthlyTotals
        (handleSettleUp true [txA300, txB100] "s1" ⟨5, 2024⟩) cats1 5 2024) =
      .owes .PARTNER_2 50 ∧
    settlementDiff (monthlyTotals
        (handleSettleUp true [txA300, txB100] "s1" ⟨5, 2024⟩) cats1 5 2024) =
      100 ∧
    settlementMsg (monthlyTotals [txA300, txB100] cats1 5 2024) =
      .owes .PARTNER_2 100 ∧ (50 : Rat) ≠ 0 := by
  have hsettle : handleSettleUp true [txA300, txB100] "s1" ⟨5, 2024⟩ =
      [txA300, txB100,
       ⟨"s1", 100, [⟨"One time things", 100⟩], ⟨5, 2024⟩, "Reset Equity",
        .PARTNER_2⟩] := by
    norm_num [handleSettleUp, p1TotalAll, p2TotalAll, txA300, txB100,
      p2_ne_p1, p1_ne_p2, abs_of_pos]
  rw [hsettle]
  have hp1 : (monthlyTotals [txA300, txB100,
      ⟨"s1", 100, [⟨"One time things", 100⟩], ⟨5, 2024⟩, "Reset Equity",
       .PARTNER_2⟩] cats1 5 2024).p1 = 300 := by
    norm_num [monthlyTotals, monthlyStep, txA300, txB100, p2_ne_p1, p1_ne_p2]
  have hp2 : (monthlyTotals [txA300, txB100,
      ⟨"s1", 100, [⟨"One time things", 100⟩], ⟨5, 2024⟩, "Reset Equity",
       .PARTNER_2⟩] cats1 5 2024).p2 = 200 := by
    norm_num [monthlyTotals, monthlyStep, txA300, txB100, p2_ne_p1, p1_ne_p2]
  have hq1 : (monthlyTotals [txA300, txB100] cats1 5 2024).p1 = 300 := by
    norm_num [monthlyTotals, monthlyStep, txA300, txB100, p2_ne_p1, p1_ne_p2]
  have hq2 : (monthlyTotals [txA300, txB100] cats1 5 2024).p2 = 100 := by
    norm_num [monthlyTotals, monthlyStep, txA300, txB100, p2_ne_p1, p1_ne_p2]
  unfold settlementMsg settlementAmount settlementDiff
  rw [hp1, hp2, hq1, hq2]
  norm_num

/-! Claim C9: over-budget flagging. -/

/-- C9 counterexample: the second Dashboard variant (src/App.tsx line
618) computes isOver as spent greater than budget with no positivity
guard, so a category with no configured limit (looked up as 0) and a
spend of 5 IS flagged as over budget, although limit greater than 0
fails. -/
theorem C9_counterexample :
    budgetLookup [] "Food" = 0 ∧
    isOverV2 5 (budgetLookup [] "Food") = true ∧
    ¬(0 : Rat) < budgetLookup [] "Food" := by
  refine ⟨rfl, ?_, ?_⟩
  · norm_num [isOverV2, budgetLookup]
  · norm_num [budgetLookup]

/-- C9 amended: the first Dashboard (src/App.tsx line 166) flags over
budget exactly when spent exceeds the limit and the limit is positive,
so an absent or zero limit is never flagged there; the second variant
flags exactly when spent exceeds the limit, with no guard. -/
theorem C9_overBudget :
    (∀ spent limit : Rat,
        isOver spent limit = true ↔ limit < spent ∧ 0 < limit) ∧
    (∀ spent limit : Rat, isOverV2 spent limit = true ↔ limit < spent) ∧
    (∀ (spent : Rat) (budgets : BudgetMap) (name : String),
        budgets.lookup name = none →
        isOver spent (budgetLookup budgets name) = false) := by
  refine ⟨?_, ?_, ?_⟩
  · intro spent limit
    simp [isOver]
  · intro spent limit
    simp [isOverV2]
  · intro spent budgets name h
    simp [isOver, budgetLookup, h]

/-- C9 witness: the amended theorem applied to an empty budget map and
a spend of 5, and to the concrete pair 5 over 3. -/
theorem C9_overBudget_witness :
    isOver 5 (budgetLookup [] "Food") = false ∧ isOver 5 3 = true := by
  refine ⟨C9_overBudget.2.2 5 [] "Food" rfl, ?_⟩
  exact (C9_overBudget.1 5 3).mpr ⟨by norm_num, by norm_num⟩

/-! Claim C10: deletion removes exactly the matching id. -/

/-- C10: a confirmed deletion keeps exactly the transactions whose id
differs from the given id, leaves the budget map, the partner names
and the goals unchanged, and is the identity on the transaction list
when no stored transaction carries the given id. -/
theorem C10_delete (s : AppStateM) (tid : String) :
    (∀ t, t ∈ (deleteTransaction true tid s).transactions ↔
        t ∈ s.transactions ∧ t.id ≠ tid) ∧
    (deleteTransaction true tid s).budgets = s.budgets ∧
    (deleteTransaction true tid s).partner1Name = s.partner1Name ∧
    (deleteTransaction true tid s).partner2Name = s.partner2Name ∧
    (deleteTransaction true tid s).goals = s.goals ∧
    ((∀ t ∈ s.transactions, t.id ≠ tid) →
        (deleteTransaction true tid s).transactions = s.transactions) := by
  refine ⟨?_, rfl, rfl, rfl, rfl, ?_⟩
  · intro t
    simp [deleteTransaction, List.mem_filter]
  · intro h
    simp only [deleteTransaction, if_pos]
    rw [List.filter_eq_self]
    intro t ht
    simpa using h t ht

/-- C10 witness: the deletion theorem applied to the concrete sample
state, removing id 2 and then a missing id 99. -/
theorem C10_delete_witness :
    (deleteTransaction true "2" sampleState).budgets = sampleState.budgets ∧
    (deleteTransaction true "2" sampleState).goals = sampleState.goals ∧
    (deleteTransaction true "99" sampleState).transactions =
      sampleState.transactions := by
  refine ⟨(C10_delete sampleState "2").2.1,
    (C10_delete sampleState "2").2.2.2.2.1, ?_⟩
  exact (C10_delete sampleState "99").2.2.2.2.2 (by decide)

end DuoSpend
